import Mathlib

/-!
Verification of the call-request pipeline of the Agentic Call Assistant
(`src/app/api/call/route.ts`): zod validation of the request body, script
synthesis, XML escaping, Twilio environment checking, the POST orchestration,
and the client-side activity-log reconciliation.
-/

namespace CallAssistant

/-- A JSON value at a field position of the untyped request body: either a
string or some non-string value (carrying its runtime type name, which zod
reports in its invalid-type message). -/
inductive JVal where
  | str (s : String)
  | other (typeName : String)
deriving DecidableEq, Repr

/-- The untyped request body as seen by `requestSchema.safeParse`: each of the
six declared fields is present with some JSON value or absent.  (Unknown extra
keys are stripped by zod and never produce issues, so they are not modelled;
a non-object body yields a single root issue and no field issue.) -/
structure RawInput where
  callerName : Option JVal
  callerNumber : Option JVal
  recipientName : Option JVal
  recipientNumber : Option JVal
  objective : Option JVal
  notes : Option JVal
deriving DecidableEq, Repr

/-- The parsed, normalized (trimmed) request, `z.infer<typeof requestSchema>`. -/
structure CallRequest where
  callerName : String
  callerNumber : Option String
  recipientName : String
  recipientNumber : String
  objective : String
  notes : Option String
deriving DecidableEq, Repr

/-- `String.prototype.trim`: strip leading and trailing whitespace. -/
def jsTrim (s : String) : String :=
  ⟨((s.data.dropWhile Char.isWhitespace).reverse.dropWhile Char.isWhitespace).reverse⟩

/-- The regex `^\+?[1-9]\d{6,14}$` from `requestSchema.recipientNumber`:
an optional leading plus sign, a first digit in 1..9, then 6 to 14 further
digits. -/
def matchesE164 (s : String) : Bool :=
  let t := match s.data with
    | '+' :: cs => cs
    | cs => cs
  match t with
  | [] => false
  | c :: rest =>
    ('1' ≤ c && c ≤ '9') && rest.all Char.isDigit &&
      (6 ≤ rest.length && rest.length ≤ 14)

/-- zod's default `too_small` message for `.min(n)` on a string. -/
def minMsg (n : Nat) : String :=
  "String must contain at least " ++ toString n ++ " character(s)"

/-- zod's default `invalid_type` message when a string was expected. -/
def typeMsg (typeName : String) : String :=
  "Expected string, received " ++ typeName

/-- The custom message attached to the recipientNumber regex in the schema. -/
def e164Msg : String := "Phone numbers must be in E.164 format."

/-- zod's message for a missing required field. -/
def requiredMsg : String := "Required"

/-- `z.string().trim().min(n)`: the field must be present and a string; it is
trimmed, then its length is checked against `n`. -/
def checkRequiredMin (n : Nat) (v : Option JVal) : Except String String :=
  match v with
  | none => .error requiredMsg
  | some (.other t) => .error (typeMsg t)
  | some (.str s) =>
    let s := jsTrim s
    if s.data.length < n then .error (minMsg n) else .ok s

/-- `z.string().trim().regex(e164, msg)` for recipientNumber. -/
def checkRecipientNumber (v : Option JVal) : Except String String :=
  match v with
  | none => .error requiredMsg
  | some (.other t) => .error (typeMsg t)
  | some (.str s) =>
    let s := jsTrim s
    if matchesE164 s then .ok s else .error e164Msg

/-- `z.string().trim().optional()`: an absent field parses to `none`; a present
field must be a string and is trimmed (a present non-string is an
invalid-type issue, even on an optional field). -/
def checkOptionalString (v : Option JVal) : Except String (Option String) :=
  match v with
  | none => .ok none
  | some (.other t) => .error (typeMsg t)
  | some (.str s) => .ok (some (jsTrim s))

/-- The first issue reported by zod, as consumed by the route
(`parsed.error.issues[0]`): the field path and the message. -/
structure ZodIssue where
  field : String
  message : String
deriving DecidableEq, Repr

/-- `requestSchema.safeParse` restricted to what the route consumes: on failure
only `issues[0]` is read, and zod orders issues by shape declaration order
(callerName, callerNumber, recipientName, recipientNumber, objective, notes),
so a short-circuit left-to-right traversal produces exactly that first issue;
on success it produces the normalized record. -/
def safeParse (r : RawInput) : Except ZodIssue CallRequest :=
  match checkRequiredMin 2 r.callerName with
  | .error m => .error ⟨"callerName", m⟩
  | .ok callerName =>
  match checkOptionalString r.callerNumber with
  | .error m => .error ⟨"callerNumber", m⟩
  | .ok callerNumber =>
  match checkRequiredMin 2 r.recipientName with
  | .error m => .error ⟨"recipientName", m⟩
  | .ok recipientName =>
  match checkRecipientNumber r.recipientNumber with
  | .error m => .error ⟨"recipientNumber", m⟩
  | .ok recipientNumber =>
  match checkRequiredMin 5 r.objective with
  | .error m => .error ⟨"objective", m⟩
  | .ok objective =>
  match checkOptionalString r.notes with
  | .error m => .error ⟨"notes", m⟩
  | .ok notes =>
  .ok ⟨callerName, callerNumber, recipientName, recipientNumber, objective, notes⟩

/-- JS truthiness of an `Option String` (`string | undefined`): `undefined`
and the empty string are falsy, any other string is truthy.  Used for the
`payload.notes ? … : undefined` and `payload.callerNumber ? … : …`
conditionals and for `.filter(Boolean)` in `buildCallScript`. -/
def truthy : Option String → Bool
  | none => false
  | some s => !(s == "")

/-- The generic callback segment of the script. -/
def genericCallback : String :=
  "If you have any questions, please reach out to them at your convenience."

/-- The fixed closing sentence of the script. -/
def closingSentence : String := "Thank you and goodbye!"

/-- `buildCallScript` from the route.  `payload.callerName ?? "Agentic
Assistant"` and `payload.callerName ?? "the caller"` can never take their
fallback branch, because `callerName` is a required string in the parsed type,
so they are modelled as `p.callerName`.  The six segments are assembled in
fixed order, `.filter(Boolean)` drops the falsy ones (`undefined` and the
empty string), and `.join(" ")` interleaves single spaces. -/
def buildCallScript (p : CallRequest) : String :=
  let greeting := "Hello " ++ p.recipientName ++ ", this is an automated call for you."
  let introduction := p.callerName ++ " asked me to share the following update."
  let objective := p.objective
  let notes : Option String :=
    if truthy p.notes then
      some ("Additional context from " ++ p.callerName ++ ": " ++ p.notes.getD "")
    else none
  let callback : String :=
    if truthy p.callerNumber then
      "If you have questions, please call back at " ++ p.callerNumber.getD "" ++ "."
    else genericCallback
  let segments : List (Option String) :=
    [some greeting, some introduction, some objective, notes, some callback,
      some closingSentence]
  String.intercalate " " ((segments.filter truthy).map (·.getD ""))

/-- Global replacement of the single character `c` by the string `r`: the
rendering on lists of characters of one `input.replace(/c/g, r)` step of
`escapeForXml`. -/
def replaceChar (c : Char) (r : List Char) (s : List Char) : List Char :=
  s.flatMap fun ch => if ch = c then r else [ch]

/-- `escapeForXml` from the route: five sequential global replacements, the
ampersand first, then double quote, apostrophe, and the angle brackets. -/
def escapeForXml (s : List Char) : List Char :=
  replaceChar '>' "&gt;".data <|
    replaceChar '<' "&lt;".data <|
      replaceChar '\'' "&apos;".data <|
        replaceChar '"' "&quot;".data <|
          replaceChar '&' "&amp;".data s

/-- `escapeForXml` on `String`, as used when building the TwiML payload. -/
def escapeForXmlStr (s : String) : String := ⟨escapeForXml s.data⟩

/-- Modelled from the spec: the repository has no unescaper; the spec's
round-trip property speaks of "unescaping (inverting each entity
replacement)", i.e. the standard XML entity decoder that maps each of the five
literal entities produced by `escapeForXml` back to its character and leaves
everything else unchanged. -/
def unescapeXml : List Char → List Char
  | '&' :: 'a' :: 'm' :: 'p' :: ';' :: t => '&' :: unescapeXml t
  | '&' :: 'q' :: 'u' :: 'o' :: 't' :: ';' :: t => '"' :: unescapeXml t
  | '&' :: 'a' :: 'p' :: 'o' :: 's' :: ';' :: t => '\'' :: unescapeXml t
  | '&' :: 'l' :: 't' :: ';' :: t => '<' :: unescapeXml t
  | '&' :: 'g' :: 't' :: ';' :: t => '>' :: unescapeXml t
  | c :: t => c :: unescapeXml t
  | [] => []

/-- The three Twilio environment variables as the process sees them:
`process.env.X` is a string or `undefined`. -/
structure TwilioEnv where
  accountSid : Option String
  authToken : Option String
  fromNumber : Option String
deriving DecidableEq, Repr

/-- JS falsiness of `process.env.X`: `undefined` or the empty string. -/
def envMissing : Option String → Bool
  | none => true
  | some s => s == ""

/-- The message of the error thrown by `ensureTwilioEnv`. -/
def configMsg : String :=
  "Missing Twilio configuration. Set TWILIO_ACCOUNT_SID, TWILIO_AUTH_TOKEN, and TWILIO_FROM_NUMBER."

/-- `ensureTwilioEnv` from the route: throws (here `.error`) when any of the
three variables is falsy, otherwise returns the triple. -/
def ensureTwilioEnv (env : TwilioEnv) : Except String (String × String × String) :=
  if envMissing env.accountSid || envMissing env.authToken || envMissing env.fromNumber then
    .error configMsg
  else
    .ok (env.accountSid.getD "", env.authToken.getD "", env.fromNumber.getD "")

/-- The arguments of one `client.calls.create` invocation. -/
structure CallParams where
  toNumber : String
  fromNumber : String
  twiml : String
deriving DecidableEq, Repr

/-- The behaviour of the Twilio provider for one invocation: it resolves with
a call object carrying `sid`, or it throws an `Error` carrying a message, or
it throws a non-`Error` value. -/
inductive ProviderBehavior where
  | accepts (sid : String)
  | rejectsError (msg : String)
  | rejectsNonError
deriving DecidableEq, Repr

/-- An unexpected fault during orchestration after the environment check and
before the provider invocation (e.g. the dynamic `import("twilio")` or client
construction failing): no fault, a thrown `Error` with a message, or a thrown
non-`Error` value. -/
inductive Fault where
  | noFault
  | errorWith (msg : String)
  | nonError
deriving DecidableEq, Repr

/-- The JSON body and HTTP status of a `NextResponse.json` reply. -/
structure Response where
  success : Bool
  message : String
  status : Nat
deriving DecidableEq, Repr

/-- The fallback message of the outermost catch for non-`Error` throwables. -/
def genericErrorMsg : String :=
  "Unexpected server error while attempting to trigger the call."

/-- The TwiML document built around the escaped script. -/
def twimlFor (script : String) : String :=
  "<Response><Say voice=\"Polly.Joey\" language=\"en-US\">" ++
    escapeForXmlStr script ++ "</Say></Response>"

/-- The success message referencing the provider call SID. -/
def successMsg (sid : String) : String :=
  "Call queued with SID " ++ sid ++ ". Twilio will place the call shortly."

/-- The `POST` handler of `/api/call`, as a function of the parsed JSON body,
the environment, the provider's behaviour and a possible orchestration fault.
It returns the response together with the list of provider invocations
performed (the arguments of each `client.calls.create` call).  A validation
failure responds 400 with the first issue's message; every thrown error is
caught by the outermost catch, which responds 500 with the error's `message`
when the throwable is an `Error` and with the generic fallback otherwise. -/
def POSTroute (env : TwilioEnv) (prov : ProviderBehavior) (fault : Fault)
    (body : RawInput) : Response × List CallParams :=
  match safeParse body with
  | .error issue => (⟨false, issue.message, 400⟩, [])
  | .ok payload =>
    match ensureTwilioEnv env with
    | .error m => (⟨false, m, 500⟩, [])
    | .ok (_accountSid, _authToken, fromNumber) =>
      match fault with
      | .errorWith m => (⟨false, m, 500⟩, [])
      | .nonError => (⟨false, genericErrorMsg, 500⟩, [])
      | .noFault =>
        let script := buildCallScript payload
        let params : CallParams :=
          ⟨payload.recipientNumber, fromNumber, twimlFor script⟩
        match prov with
        | .accepts sid => (⟨true, successMsg sid, 200⟩, [params])
        | .rejectsError m => (⟨false, m, 500⟩, [params])
        | .rejectsNonError => (⟨false, genericErrorMsg, 500⟩, [params])

/-- Client-side call status (`CallStatus` in the page component). -/
inductive CallStatus where
  | queued
  | success
  | error
deriving DecidableEq, Repr

/-- A client-side activity-log entry (`CallLogEntry` in the page component). -/
structure CallLogEntry where
  id : String
  createdAt : String
  status : CallStatus
  recipientName : String
  recipientNumber : String
  objective : String
  notes : Option String
  responseMessage : String
deriving DecidableEq, Repr

/-- The form state (`CallRequestFormState`); structurally the same record as
the parsed request. -/
abbrev CallRequestFormState := CallRequest

/-- `defaultForm` from the page component. -/
def defaultForm : CallRequestFormState :=
  ⟨"Agentic Assistant", some "", "", "", "", some ""⟩

/-- The `setLogs(prev => prev.map(...))` reconciliation step of
`handleSubmit`: every entry whose id equals the resolved submission's id gets
the new status and response message; every other entry is returned
unchanged. -/
def resolveLog (logs : List CallLogEntry) (targetId : String)
    (ok : Bool) (msg : String) : List CallLogEntry :=
  logs.map fun log =>
    if log.id = targetId then
      { log with status := if ok then .success else .error, responseMessage := msg }
    else log

/-- The client state touched by submission and resolution: the form values
and the activity log (newest entry first). -/
structure ClientState where
  form : CallRequestFormState
  logs : List CallLogEntry
deriving DecidableEq, Repr

/-- The synchronous part of `handleSubmit` after local validation succeeds:
prepend the optimistic `queued` entry snapshotting the validated data. -/
def submitEntry (st : ClientState) (id createdAt : String)
    (data : CallRequest) : ClientState :=
  { st with
    logs :=
      ⟨id, createdAt, .queued, data.recipientName, data.recipientNumber,
        data.objective, data.notes, "Sending call request..."⟩ :: st.logs }

/-- The resolution of one submission's round trip in `handleSubmit`: the log
is reconciled by identifier with the payload's verdict and message, and on
success (and only then) `resetForm()` restores `defaultForm`. -/
def resolveSubmission (st : ClientState) (entryId : String)
    (ok : Bool) (msg : String) : ClientState :=
  let logs := resolveLog st.logs entryId ok msg
  if ok then { form := defaultForm, logs := logs }
  else { st with logs := logs }

/-! ## Theorems -/

/-- C8: the recipientNumber rule accepts "+15551234567" and "5551234" and
rejects "0123456789" (leading zero), "+1555" (too short) and "abc", the
accepted values parsing to themselves and the rejected ones producing the
E.164 format message. -/
theorem c8_recipientNumber_examples :
    checkRecipientNumber (some (.str "+15551234567")) = .ok "+15551234567" ∧
    checkRecipientNumber (some (.str "5551234")) = .ok "5551234" ∧
    checkRecipientNumber (some (.str "0123456789")) = .error e164Msg ∧
    checkRecipientNumber (some (.str "+1555")) = .error e164Msg ∧
    checkRecipientNumber (some (.str "abc")) = .error e164Msg :=
  ⟨rfl, rfl, rfl, rfl, rfl⟩

/-- C10: at the synthesizer's interface an optional field holding the empty
string (the trim of a whitespace-only input) is indistinguishable from an
absent one: the script is unchanged when an empty callerNumber or empty notes
field is replaced by an absent one. -/
theorem c10_empty_optional_as_absent (p : CallRequest) :
    buildCallScript { p with callerNumber := some "" } =
      buildCallScript { p with callerNumber := none } ∧
    buildCallScript { p with notes := some "" } =
      buildCallScript { p with notes := none } :=
  ⟨rfl, rfl⟩

/-- The per-field rules of `requestSchema` on an already-normalized record:
what `safeParse` guarantees about the payload it hands to the rest of the
route. -/
def validRequest (p : CallRequest) : Prop :=
  2 ≤ p.callerName.data.length ∧ 2 ≤ p.recipientName.data.length ∧
    matchesE164 p.recipientNumber = true ∧ 5 ≤ p.objective.data.length

lemma truthy_some_append (a b : String) (ha : truthy (some a) = true) :
    truthy (some (a ++ b)) = true := by
  simp only [truthy, Bool.not_eq_true', beq_eq_false_iff_ne, ne_eq] at *
  intro h
  apply ha
  apply String.ext
  have hd : (a ++ b).data = ("" : String).data := congrArg String.data h
  rw [String.data_append] at hd
  exact (List.append_eq_nil.mp hd).1

lemma truthy_of_length (s : String) (h : 0 < s.data.length) :
    truthy (some s) = true := by
  simp only [truthy, Bool.not_eq_true', beq_eq_false_iff_ne, ne_eq]
  intro he
  rw [he] at h
  simp at h

/-- C7: for a valid request with no notes and no callerNumber the synthesized
script is exactly the greeting, the introduction, the objective, the generic
callback segment and the fixed closing sentence, in that order, separated by
single spaces — in particular no notes segment occurs. -/
theorem c7_script_shape (p : CallRequest) (hv : validRequest p)
    (hnotes : p.notes = none) (hcb : p.callerNumber = none) :
    buildCallScript p =
      "Hello " ++ p.recipientName ++ ", this is an automated call for you." ++ " " ++
        (p.callerName ++ " asked me to share the following update.") ++ " " ++
        p.objective ++ " " ++ genericCallback ++ " " ++ closingSentence := by
  obtain ⟨hcn, -, -, hobj⟩ := hv
  have h1 : truthy (some ("Hello " ++ p.recipientName ++
      ", this is an automated call for you.")) = true :=
    truthy_some_append _ _ (truthy_some_append "Hello " _ rfl)
  have h2 : truthy (some (p.callerName ++
      " asked me to share the following update.")) = true :=
    truthy_some_append _ _ (truthy_of_length _ (by omega))
  have h3 : truthy (some p.objective) = true := truthy_of_length _ (by omega)
  unfold buildCallScript
  rw [hnotes, hcb]
  simp only [List.filter, h1, h2, h3, show truthy none = false from rfl,
    Bool.false_eq_true, if_false, show truthy (some genericCallback) = true from rfl,
    show truthy (some closingSentence) = true from rfl, List.map,
    Option.getD_some]
  simp [String.intercalate, String.intercalate.go]

/-- C7 witness: the script shape theorem applied to a concrete valid request
without notes and without callerNumber. -/
theorem c7_script_shape_witness :
    buildCallScript
        ⟨"Alice", none, "Bob", "+15551234567", "Discuss the quarterly report", none⟩ =
      "Hello " ++ "Bob" ++ ", this is an automated call for you." ++ " " ++
        ("Alice" ++ " asked me to share the following update.") ++ " " ++
        "Discuss the quarterly report" ++ " " ++ genericCallback ++ " " ++
        closingSentence :=
  c7_script_shape _ ⟨by decide, by decide, rfl, by decide⟩ rfl rfl

/-- Per-character view of `escapeForXml`: what one source character becomes
after all five replacement passes. -/
def encodeChar (c : Char) : List Char :=
  if c = '&' then "&amp;".data
  else if c = '"' then "&quot;".data
  else if c = '\'' then "&apos;".data
  else if c = '<' then "&lt;".data
  else if c = '>' then "&gt;".data
  else [c]

lemma escapeForXml_append (a b : List Char) :
    escapeForXml (a ++ b) = escapeForXml a ++ escapeForXml b := by
  simp [escapeForXml, replaceChar]

lemma escapeForXml_cons (c : Char) (s : List Char) :
    escapeForXml (c :: s) = escapeForXml [c] ++ escapeForXml s := by
  simpa using escapeForXml_append [c] s

lemma escapeForXml_single (c : Char) : escapeForXml [c] = encodeChar c := by
  by_cases h1 : c = '&'
  · subst h1; decide
  · by_cases h2 : c = '"'
    · subst h2; decide
    · by_cases h3 : c = '\''
      · subst h3; decide
      · by_cases h4 : c = '<'
        · subst h4; decide
        · by_cases h5 : c = '>'
          · subst h5; decide
          · simp [escapeForXml, replaceChar, encodeChar, h1, h2, h3, h4, h5]

lemma unescape_amp (t : List Char) :
    unescapeXml ('&' :: 'a' :: 'm' :: 'p' :: ';' :: t) = '&' :: unescapeXml t := by
  simp [unescapeXml]

lemma unescape_quot (t : List Char) :
    unescapeXml ('&' :: 'q' :: 'u' :: 'o' :: 't' :: ';' :: t) = '"' :: unescapeXml t := by
  simp [unescapeXml]

lemma unescape_apos (t : List Char) :
    unescapeXml ('&' :: 'a' :: 'p' :: 'o' :: 's' :: ';' :: t) = '\'' :: unescapeXml t := by
  simp [unescapeXml]

lemma unescape_lt (t : List Char) :
    unescapeXml ('&' :: 'l' :: 't' :: ';' :: t) = '<' :: unescapeXml t := by
  simp [unescapeXml]

lemma unescape_gt (t : List Char) :
    unescapeXml ('&' :: 'g' :: 't' :: ';' :: t) = '>' :: unescapeXml t := by
  simp [unescapeXml]

lemma unescape_cons_ne (c : Char) (t : List Char) (h : c ≠ '&') :
    unescapeXml (c :: t) = c :: unescapeXml t := by
  rw [unescapeXml.eq_def]
  split
  all_goals simp_all

/-- Unescaping undoes escaping on every character list. -/
lemma unescape_escape (s : List Char) : unescapeXml (escapeForXml s) = s := by
  induction s with
  | nil => rfl
  | cons c s ih =>
    rw [escapeForXml_cons, escapeForXml_single c]
    by_cases h1 : c = '&'
    · subst h1
      show unescapeXml ('&' :: 'a' :: 'm' :: 'p' :: ';' :: escapeForXml s) = _
      rw [unescape_amp, ih]
    · by_cases h2 : c = '"'
      · subst h2
        show unescapeXml ('&' :: 'q' :: 'u' :: 'o' :: 't' :: ';' :: escapeForXml s) = _
        rw [unescape_quot, ih]
      · by_cases h3 : c = '\''
        · subst h3
          show unescapeXml ('&' :: 'a' :: 'p' :: 'o' :: 's' :: ';' :: escapeForXml s) = _
          rw [unescape_apos, ih]
        · by_cases h4 : c = '<'
          · subst h4
            show unescapeXml ('&' :: 'l' :: 't' :: ';' :: escapeForXml s) = _
            rw [unescape_lt, ih]
          · by_cases h5 : c = '>'
            · subst h5
              show unescapeXml ('&' :: 'g' :: 't' :: ';' :: escapeForXml s) = _
              rw [unescape_gt, ih]
            · rw [show encodeChar c = [c] by simp [encodeChar, h1, h2, h3, h4, h5]]
              show unescapeXml (c :: escapeForXml s) = _
              rw [unescape_cons_ne c _ h1, ih]

/-- C6: escaping a synthesized script with the provider-boundary escaper and
then unescaping (inverting each entity replacement) recovers the script
exactly. -/
theorem c6_escape_roundtrip (p : CallRequest) :
    unescapeXml (escapeForXmlStr (buildCallScript p)).data =
      (buildCallScript p).data :=
  unescape_escape (buildCallScript p).data

/-- Follows the claim's words (spec section 4.1), for comparison with
`safeParse`: check callerName, recipientName, recipientNumber and objective in
that fixed order, each trimmed, first failure wins; callerNumber and notes are
never checked. -/
def specFirstIssue (r : RawInput) : Option ZodIssue :=
  match checkRequiredMin 2 r.callerName with
  | .error m => some ⟨"callerName", m⟩
  | .ok _ =>
  match checkRequiredMin 2 r.recipientName with
  | .error m => some ⟨"recipientName", m⟩
  | .ok _ =>
  match checkRecipientNumber r.recipientNumber with
  | .error m => some ⟨"recipientNumber", m⟩
  | .ok _ =>
  match checkRequiredMin 5 r.objective with
  | .error m => some ⟨"objective", m⟩
  | .ok _ => none

/-- The field is absent or holds a JSON string. -/
def isTextOrAbsent : Option JVal → Bool
  | some (.other _) => false
  | _ => true

/-- Every present field of the body is a JSON string. -/
def allText (r : RawInput) : Bool :=
  isTextOrAbsent r.callerName && isTextOrAbsent r.callerNumber &&
    isTextOrAbsent r.recipientName && isTextOrAbsent r.recipientNumber &&
    isTextOrAbsent r.objective && isTextOrAbsent r.notes

/-- A body whose callerNumber is a JSON number and whose recipientName is too
short: zod's first issue is the callerNumber invalid-type issue, not the
recipientName issue the spec's field order predicts. -/
def c1cex : RawInput :=
  ⟨some (.str "Alice"), some (.other "number"), some (.str "B"),
    some (.str "+15551234567"), some (.str "Discuss the report"), none⟩

/-- C1 counterexample: on a body with a non-string callerNumber and a too-short
recipientName, validation fails on callerNumber (so callerNumber can cause a
validation failure), and the 400 response carries the callerNumber invalid-type
message rather than the message of the first violated field in the claimed
order callerName, recipientName, recipientNumber, objective. -/
theorem c1_counterexample :
    safeParse c1cex = .error ⟨"callerNumber", typeMsg "number"⟩ ∧
    specFirstIssue c1cex = some ⟨"recipientName", minMsg 2⟩ ∧
    (POSTroute ⟨some "AC1", some "tok", some "+15550000000"⟩ (.accepts "CA1")
        .noFault c1cex).1 =
      ⟨false, typeMsg "number", 400⟩ ∧
    typeMsg "number" ≠ minMsg 2 :=
  ⟨rfl, rfl, rfl, by decide⟩

/-- C1 amended: for every body all of whose present fields are JSON strings,
a validation failure responds 400 with the message of the first violated field
in the fixed order callerName, recipientName, recipientNumber, objective (text
fields trimmed before checking), with no provider invocation; callerNumber and
notes never cause a validation failure there; and when no field in that order
is violated, validation succeeds. -/
theorem c1_first_issue_order (env : TwilioEnv) (prov : ProviderBehavior)
    (fault : Fault) (r : RawInput) (ht : allText r = true) :
    (∀ i, specFirstIssue r = some i →
      (POSTroute env prov fault r).1 = ⟨false, i.message, 400⟩ ∧
      (POSTroute env prov fault r).2 = [] ∧
      (i.field = "callerName" ∨ i.field = "recipientName" ∨
        i.field = "recipientNumber" ∨ i.field = "objective")) ∧
    (specFirstIssue r = none → ∃ p, safeParse r = .ok p) := by
  have hcb : ∃ v, checkOptionalString r.callerNumber = .ok v := by
    match h : r.callerNumber with
    | none => exact ⟨none, rfl⟩
    | some (.str s) => exact ⟨some (jsTrim s), rfl⟩
    | some (.other t) => simp [allText, isTextOrAbsent, h] at ht
  have hnt : ∃ v, checkOptionalString r.notes = .ok v := by
    match h : r.notes with
    | none => exact ⟨none, rfl⟩
    | some (.str s) => exact ⟨some (jsTrim s), rfl⟩
    | some (.other t) => simp [allText, isTextOrAbsent, h] at ht
  obtain ⟨cb, hcb⟩ := hcb
  obtain ⟨nt, hnt⟩ := hnt
  unfold POSTroute safeParse specFirstIssue
  rw [hcb, hnt]
  cases h1 : checkRequiredMin 2 r.callerName with
  | error m => simp
  | ok v1 =>
    cases h2 : checkRequiredMin 2 r.recipientName with
    | error m => simp
    | ok v2 =>
      cases h3 : checkRecipientNumber r.recipientNumber with
      | error m => simp
      | ok v3 =>
        cases h4 : checkRequiredMin 5 r.objective with
        | error m => simp
        | ok v4 => simp

/-- An all-text body whose recipientName is too short. -/
def c1wit : RawInput :=
  ⟨some (.str "Alice"), none, some (.str "B"), some (.str "+15551234567"),
    some (.str "Discuss the report"), none⟩

/-- C1 amended witness: on an all-text body whose recipientName is too short,
the response carries the recipientName too-small message with status 400. -/
theorem c1_first_issue_order_witness :
    (POSTroute ⟨some "AC1", some "tok", some "+15550000000"⟩ (.accepts "CA1")
        .noFault c1wit).1 =
      ⟨false, minMsg 2, 400⟩ :=
  ((c1_first_issue_order ⟨some "AC1", some "tok", some "+15550000000"⟩
      (.accepts "CA1") .noFault c1wit rfl).1
    ⟨"recipientName", minMsg 2⟩ rfl).1

/-- A body that passes validation, used as a concrete dispatch scenario. -/
def validBody : RawInput :=
  ⟨some (.str "Alice"), none, some (.str "Bob"), some (.str "+15551234567"),
    some (.str "Discuss the report"), none⟩

/-- A fully configured Twilio environment. -/
def okEnv : TwilioEnv := ⟨some "AC1", some "tok", some "+15550000000"⟩

/-- C2 counterexample: an unexpected `Error` raised during orchestration (after
validation and the environment check) is surfaced to the caller with its own
message — here an internals-revealing TypeError text — not with the generic
server-error message. -/
theorem c2_counterexample :
    (POSTroute okEnv (.accepts "CA1")
        (.errorWith "TypeError: Cannot read properties of undefined (reading calls)")
        validBody).1 =
      ⟨false, "TypeError: Cannot read properties of undefined (reading calls)", 500⟩ ∧
    "TypeError: Cannot read properties of undefined (reading calls)" ≠ genericErrorMsg :=
  ⟨rfl, by decide⟩

/-- C2 amended: every uncategorized error thrown during orchestration is caught
at the outermost boundary and answered with a success=false, status-500
response and no provider invocation; the caller receives the thrown `Error`'s
own message when the throwable is an `Error` (which may expose internal
detail), and the generic server-error message only when it is not an
`Error`. -/
theorem c2_caught_at_boundary (env : TwilioEnv) (prov : ProviderBehavior)
    (r : RawInput) (p : CallRequest) (hp : safeParse r = .ok p)
    (t : String × String × String) (he : ensureTwilioEnv env = .ok t) (m : String) :
    POSTroute env prov (.errorWith m) r = (⟨false, m, 500⟩, []) ∧
    POSTroute env prov .nonError r = (⟨false, genericErrorMsg, 500⟩, []) := by
  obtain ⟨a, b, c⟩ := t
  unfold POSTroute
  rw [hp, he]
  exact ⟨rfl, rfl⟩

/-- C2 amended witness: the boundary-catch theorem applied to a concrete valid
body, configured environment, and a thrown `Error` with message "boom". -/
theorem c2_caught_at_boundary_witness :
    POSTroute okEnv (.accepts "CA1") (.errorWith "boom") validBody =
      (⟨false, "boom", 500⟩, []) ∧
    POSTroute okEnv (.accepts "CA1") .nonError validBody =
      (⟨false, genericErrorMsg, 500⟩, []) :=
  c2_caught_at_boundary okEnv (.accepts "CA1") validBody
    ⟨"Alice", none, "Bob", "+15551234567", "Discuss the report", none⟩ rfl
    ("AC1", "tok", "+15550000000") rfl "boom"

/-- C3: a body that fails validation produces zero provider invocations, and a
body that passes validation, with the configuration present and a fault-free
orchestration, produces exactly one provider invocation — for every provider
behaviour, including rejections. -/
theorem c3_provider_invocations (env : TwilioEnv) (prov : ProviderBehavior)
    (fault : Fault) (r : RawInput) :
    (∀ i, safeParse r = .error i → (POSTroute env prov fault r).2 = []) ∧
    (∀ p, safeParse r = .ok p → ∀ t, ensureTwilioEnv env = .ok t →
      fault = .noFault → (POSTroute env prov fault r).2.length = 1) := by
  constructor
  · intro i hi
    unfold POSTroute
    rw [hi]
  · intro p hp t ht hf
    obtain ⟨a, b, c⟩ := t
    subst hf
    unfold POSTroute
    rw [hp, ht]
    cases prov <;> rfl

/-- C3 witness: the invocation-count theorem applied to a concrete invalid body
(all fields missing) and to a concrete valid body. -/
theorem c3_provider_invocations_witness :
    (POSTroute okEnv (.accepts "CA1") .noFault
        ⟨none, none, none, none, none, none⟩).2 = [] ∧
    (POSTroute okEnv (.accepts "CA1") .noFault validBody).2.length = 1 :=
  ⟨(c3_provider_invocations okEnv (.accepts "CA1") .noFault
      ⟨none, none, none, none, none, none⟩).1 ⟨"callerName", requiredMsg⟩ rfl,
   (c3_provider_invocations okEnv (.accepts "CA1") .noFault validBody).2
      ⟨"Alice", none, "Bob", "+15551234567", "Discuss the report", none⟩ rfl
      ("AC1", "tok", "+15550000000") rfl rfl⟩

/-- C4: for a validated request with any of the three configuration values
absent, the route fails fast with the fixed configuration message — the same
response for every provider behaviour and fault, with zero provider
invocations (so before any network interaction), and still a well-formed
failure response rather than a crash. -/
theorem c4_config_fail_fast (env : TwilioEnv) (prov : ProviderBehavior)
    (fault : Fault) (r : RawInput) (p : CallRequest) (hp : safeParse r = .ok p)
    (habs : env.accountSid = none ∨ env.authToken = none ∨ env.fromNumber = none) :
    POSTroute env prov fault r = (⟨false, configMsg, 500⟩, []) := by
  have he : ensureTwilioEnv env = .error configMsg := by
    unfold ensureTwilioEnv
    rcases habs with h | h | h <;> rw [h] <;> simp [envMissing]
  unfold POSTroute
  rw [hp, he]

/-- C4 witness: the fail-fast theorem applied to a concrete valid body with the
account identifier missing. -/
theorem c4_config_fail_fast_witness :
    POSTroute ⟨none, some "tok", some "+15550000000"⟩ (.accepts "CA1") .noFault
        validBody =
      (⟨false, configMsg, 500⟩, []) :=
  c4_config_fail_fast ⟨none, some "tok", some "+15550000000"⟩ (.accepts "CA1")
    .noFault validBody
    ⟨"Alice", none, "Bob", "+15551234567", "Discuss the report", none⟩ rfl
    (Or.inl rfl)

/-- The entry update applied by one resolution to the matching entry. -/
def resolvedEntry (e : CallLogEntry) (ok : Bool) (msg : String) : CallLogEntry :=
  { e with status := if ok then .success else .error, responseMessage := msg }

lemma resolveLog_eq_map (logs : List CallLogEntry) (t : String) (ok : Bool)
    (m : String) :
    resolveLog logs t ok m =
      logs.map fun log => if log.id = t then resolvedEntry log ok m else log := rfl

lemma resolveLog_getElem? (logs : List CallLogEntry) (t : String) (ok : Bool)
    (m : String) (i : Nat) :
    (resolveLog logs t ok m)[i]? =
      (logs[i]?).map fun log =>
        if log.id = t then resolvedEntry log ok m else log :=
  List.getElem?_map _ _ _

lemma resolvedEntry_id (e : CallLogEntry) (ok : Bool) (msg : String) :
    (resolvedEntry e ok msg).id = e.id := rfl

/-- C5: two resolutions with distinct identifiers commute (so the round trips
may resolve in either order, including the second before the first), and each
resolution rewrites exactly the entries whose identifier matches its own
submission: at every position whose entry matches neither identifier the entry
is returned unchanged, and the entry matching an identifier carries that
resolution's status and message. -/
theorem c5_independent_resolution (logs : List CallLogEntry) (id1 id2 : String)
    (ok1 ok2 : Bool) (m1 m2 : String) (hne : id1 ≠ id2) :
    resolveLog (resolveLog logs id1 ok1 m1) id2 ok2 m2 =
      resolveLog (resolveLog logs id2 ok2 m2) id1 ok1 m1 ∧
    (∀ (i : Nat) (e : CallLogEntry), logs[i]? = some e → e.id ≠ id1 → e.id ≠ id2 →
      (resolveLog (resolveLog logs id2 ok2 m2) id1 ok1 m1)[i]? = some e) ∧
    (∀ (i : Nat) (e : CallLogEntry), logs[i]? = some e → e.id = id1 →
      (resolveLog (resolveLog logs id2 ok2 m2) id1 ok1 m1)[i]? =
        some (resolvedEntry e ok1 m1)) ∧
    (∀ (i : Nat) (e : CallLogEntry), logs[i]? = some e → e.id = id2 →
      (resolveLog (resolveLog logs id2 ok2 m2) id1 ok1 m1)[i]? =
        some (resolvedEntry e ok2 m2)) := by
  refine ⟨?_, ?_, ?_, ?_⟩
  · simp only [resolveLog_eq_map, List.map_map]
    apply List.map_congr_left
    intro log _
    by_cases h1 : log.id = id1
    · have h2 : log.id ≠ id2 := by rw [h1]; exact hne
      simp [Function.comp, h1, h2, resolvedEntry_id, hne, Ne.symm hne]
    · by_cases h2 : log.id = id2
      · simp [Function.comp, h1, h2, resolvedEntry_id, hne, Ne.symm hne]
      · simp [Function.comp, h1, h2]
  · intro i e hi h1 h2
    rw [resolveLog_getElem?, resolveLog_getElem?, hi]
    simp [h1, h2]
  · intro i e hi h1
    have h2 : e.id ≠ id2 := by rw [h1]; exact hne
    rw [resolveLog_getElem?, resolveLog_getElem?, hi]
    simp [h1, h2, resolvedEntry_id, hne, Ne.symm hne]
  · intro i e hi h2
    have h1 : e.id ≠ id1 := by rw [h2]; exact Ne.symm hne
    rw [resolveLog_getElem?, resolveLog_getElem?, hi]
    simp [h1, h2, resolvedEntry_id, hne, Ne.symm hne]

/-- Two queued entries from two submissions. -/
def entryA : CallLogEntry :=
  ⟨"id-a", "2026-10-11T10:00:00Z", .queued, "Bob", "+15551234567",
    "Discuss the report", none, "Sending call request..."⟩

/-- The second queued entry, with a distinct identifier. -/
def entryB : CallLogEntry :=
  ⟨"id-b", "2026-10-11T10:00:01Z", .queued, "Cara", "+15557654321",
    "Confirm the meeting", none, "Sending call request..."⟩

/-- C5 witness: with two concrete queued entries, resolving out of order gives
the same log as resolving in order, and the out-of-order resolution still
updates the first submission's entry with its own verdict and message. -/
theorem c5_independent_resolution_witness :
    (resolveLog (resolveLog [entryB, entryA] "id-a" true "queued ok") "id-b"
        false "rejected" =
      resolveLog (resolveLog [entryB, entryA] "id-b" false "rejected") "id-a"
        true "queued ok") ∧
    (resolveLog (resolveLog [entryB, entryA] "id-b" false "rejected") "id-a"
        true "queued ok")[1]? = some (resolvedEntry entryA true "queued ok") := by
  have h := c5_independent_resolution [entryB, entryA] "id-a" "id-b" true false
    "queued ok" "rejected" (by decide)
  exact ⟨h.1, h.2.2.1 1 entryA rfl rfl⟩

lemma resolveSubmission_logs (st : ClientState) (entryId : String) (ok : Bool)
    (msg : String) :
    (resolveSubmission st entryId ok msg).logs =
      resolveLog st.logs entryId ok msg := by
  unfold resolveSubmission
  cases ok <;> rfl

/-- C9: when a submission's round trip resolves with failure, the matching log
entry transitions to error carrying the returned message and the form is left
unchanged; when it resolves with success, the matching entry transitions to
success and the form is reset to its defaults; entries with other identifiers
are untouched either way. -/
theorem c9_resolution (st : ClientState) (entryId : String) (ok : Bool)
    (msg : String) :
    (ok = false → (resolveSubmission st entryId ok msg).form = st.form) ∧
    (ok = true → (resolveSubmission st entryId ok msg).form = defaultForm) ∧
    (∀ (i : Nat) (e : CallLogEntry), st.logs[i]? = some e → e.id = entryId →
      (resolveSubmission st entryId ok msg).logs[i]? =
        some (resolvedEntry e ok msg)) ∧
    (∀ (i : Nat) (e : CallLogEntry), st.logs[i]? = some e → e.id ≠ entryId →
      (resolveSubmission st entryId ok msg).logs[i]? = some e) := by
  refine ⟨?_, ?_, ?_, ?_⟩
  · intro h; subst h; rfl
  · intro h; subst h; rfl
  · intro i e hi h
    rw [resolveSubmission_logs, resolveLog_getElem?, hi]
    simp [h]
  · intro i e hi h
    rw [resolveSubmission_logs, resolveLog_getElem?, hi]
    simp [h]

/-- C9 witness: a concrete provider rejection transitions the queued entry to
error with the provider's message and leaves the form as it was. -/
theorem c9_resolution_witness :
    (resolveSubmission ⟨defaultForm, [entryA]⟩ "id-a" false "provider says no").form =
      (⟨defaultForm, [entryA]⟩ : ClientState).form ∧
    (resolveSubmission ⟨defaultForm, [entryA]⟩ "id-a" false
        "provider says no").logs[0]? =
      some (resolvedEntry entryA false "provider says no") :=
  ⟨(c9_resolution ⟨defaultForm, [entryA]⟩ "id-a" false "provider says no").1 rfl,
   (c9_resolution ⟨defaultForm, [entryA]⟩ "id-a" false "provider says no").2.2.1
      0 entryA rfl rfl⟩

end CallAssistant
